import Mathlib

/-!
Verification of the moviebot pagination / fetch / persistence core.

Shallow embedding of `src/main.py` and `src/database.py`:
pure fragments become Lean functions, the per-conversation FSM state
(`current_page`, stored result lists) becomes an explicit state record,
and each handler becomes a state-transformer returning the new state
together with an observable outcome (render / no-op / fault).
Python exceptions are modelled as explicit outcome constructors.
-/

namespace MovieBot

/-! ## Navigation engine (`handle_navigation`, main.py lines 380-398)

The handler reads `current_page` (default 0) and the result list under
`data_key` (default `[]`) from the FSM state, then:
  * on the `prev` callback, if `current_page > 0`: decrement, store, and
    render `results[current_page]`;
  * on the `next` callback, if `current_page < len(results) - 1`:
    increment, store, and render `results[current_page]`;
  * otherwise: nothing happens.
Python evaluates `len(results) - 1` in `Int`; for `current_page : Nat`
the guard `current_page < len - 1` is equivalent to
`current_page + 1 < len`, which is the form used below.
Indexing `results[current_page]` can raise `IndexError` when the index
is out of range (the index is never negative here: in the `prev` branch
it is guarded by `current_page > 0`); a raised `IndexError` is the
`fault` outcome.  The state write (`state.update_data`) happens before
the render call, so on a fault the decremented page is already stored. -/

/-- Per-conversation navigation state: the stored result list under the
handler's `data_key` and the stored cursor `current_page`.  A missing
list models as `[]` and a missing cursor as `0`, matching the
`data.get(..., [])` / `data.get("current_page", 0)` defaults. -/
structure NavState (α : Type) where
  results : List α
  current_page : Nat
  deriving Repr, DecidableEq

/-- The two navigation callbacks routed into `handle_navigation`
(`prev_page`/`next_page`, `prev_popular`/`next_popular`, etc.). -/
inductive NavEvent where
  | prev
  | next
  deriving Repr, DecidableEq

/-- Observable outcome of one `handle_navigation` call: a re-render of
an item at a page, a pure no-op, or an uncaught `IndexError`. -/
inductive NavOutcome (α : Type) where
  | noop
  | rendered (item : α) (page : Nat) (total : Nat)
  | fault
  deriving Repr, DecidableEq

/-- `handle_navigation` from main.py: new session state plus outcome. -/
def handle_navigation {α : Type} (st : NavState α) (e : NavEvent) :
    NavState α × NavOutcome α :=
  match e with
  | .prev =>
    if 0 < st.current_page then
      let p := st.current_page - 1
      let st' : NavState α := { st with current_page := p }
      match st.results.get? p with
      | some item => (st', .rendered item p st.results.length)
      | none => (st', .fault)
    else (st, .noop)
  | .next =>
    if st.current_page + 1 < st.results.length then
      let p := st.current_page + 1
      let st' : NavState α := { st with current_page := p }
      match st.results.get? p with
      | some item => (st', .rendered item p st.results.length)
      | none => (st', .fault)
    else (st, .noop)

/-- Run a finite sequence of navigation events, threading the state. -/
def runNav {α : Type} (st : NavState α) (es : List NavEvent) : NavState α :=
  es.foldl (fun s e => (handle_navigation s e).1) st

theorem handle_navigation_results_eq {α : Type} (st : NavState α) (e : NavEvent) :
    (handle_navigation st e).1.results = st.results := by
  cases e <;> simp only [handle_navigation]
  · split
    · cases st.results.get? (st.current_page - 1) <;> rfl
    · rfl
  · split
    · cases st.results.get? (st.current_page + 1) <;> rfl
    · rfl

theorem handle_navigation_page_lt {α : Type} (st : NavState α)
    (h : st.current_page < st.results.length) (e : NavEvent) :
    (handle_navigation st e).1.current_page < st.results.length := by
  cases e <;> simp only [handle_navigation]
  · split
    · cases st.results.get? (st.current_page - 1) <;> exact lt_of_le_of_lt (Nat.sub_le _ _) h
    · exact h
  · split
    · rename_i hg
      cases st.results.get? (st.current_page + 1) <;> exact hg
    · exact h

theorem runNav_results_eq {α : Type} (st : NavState α) (es : List NavEvent) :
    (runNav st es).results = st.results := by
  induction es generalizing st with
  | nil => rfl
  | cons e es ih =>
    simp only [runNav, List.foldl_cons] at *
    rw [ih, handle_navigation_results_eq]

theorem runNav_page_lt {α : Type} (st : NavState α)
    (h : st.current_page < st.results.length) (es : List NavEvent) :
    (runNav st es).current_page < st.results.length := by
  induction es generalizing st with
  | nil => exact h
  | cons e es ih =>
    simp only [runNav, List.foldl_cons] at *
    have h1 := handle_navigation_page_lt st h e
    rw [← handle_navigation_results_eq st e] at h1
    have := ih _ h1
    rwa [handle_navigation_results_eq st e] at this

/-- C1: for a session holding a non-empty result set with a cursor in
`[0, n-1]`, any finite sequence of advance/retreat events keeps the
result set unchanged and the cursor within `[0, n-1]`; an advance at
cursor `n-1` and a retreat at cursor `0` each leave the session state
unchanged and render nothing (a pure no-op). -/
theorem C1_nav_cursor_invariant {α : Type} (st : NavState α)
    (hne : st.results ≠ []) (hcur : st.current_page < st.results.length) :
    (∀ es : List NavEvent,
        (runNav st es).results = st.results ∧
        (runNav st es).current_page < st.results.length) ∧
    (st.current_page = st.results.length - 1 →
        handle_navigation st .next = (st, .noop)) ∧
    (st.current_page = 0 → handle_navigation st .prev = (st, .noop)) := by
  refine ⟨fun es => ⟨runNav_results_eq st es, runNav_page_lt st hcur es⟩, ?_, ?_⟩
  · intro hlast
    have hlen : st.results.length ≠ 0 := fun h0 => hne (List.length_eq_zero.mp h0)
    have : ¬ st.current_page + 1 < st.results.length := by omega
    simp only [handle_navigation, if_neg this]
  · intro h0
    simp [handle_navigation, h0]

theorem C1_nav_cursor_invariant_witness :
    (runNav (⟨[10, 20], 1⟩ : NavState Nat) [.next, .next, .prev]).current_page <
      ([10, 20] : List Nat).length ∧
    handle_navigation (⟨[10, 20], 1⟩ : NavState Nat) .next = (⟨[10, 20], 1⟩, .noop) :=
  ⟨((C1_nav_cursor_invariant ⟨[10, 20], 1⟩ (by decide) (by decide)).1
      [.next, .next, .prev]).2,
   (C1_nav_cursor_invariant ⟨[10, 20], 1⟩ (by decide) (by decide)).2.1 (by decide)⟩

/-- C10 counterexample: with no stored result list (defaulting to `[]`)
but a stored `current_page = 1`, a retreat event passes the
`current_page > 0` guard, stores the decremented cursor, and indexes the
empty list at position 0 — an uncaught `IndexError`, not a no-op. -/
theorem C10_nav_counterexample :
    handle_navigation (⟨[], 1⟩ : NavState Nat) .prev =
      (⟨[], 0⟩, NavOutcome.fault) := by
  decide

/-- C10 (amended): when both session entries are missing — the result
list defaults to `[]` and `current_page` defaults to `0` — every
navigation event is a pure no-op with no indexing and no fault.  In
general the handler checks only `current_page > 0` before indexing at
`current_page - 1`, so a fault is possible exactly on a retreat event
with the stored cursor strictly greater than the stored list's length;
an advance event never indexes out of bounds. -/
theorem C10_nav_missing_state {α : Type} :
    (∀ e : NavEvent, handle_navigation (⟨[], 0⟩ : NavState α) e = (⟨[], 0⟩, .noop)) ∧
    (∀ (st : NavState α) (e : NavEvent), (handle_navigation st e).2 = .fault →
        e = .prev ∧ st.results.length < st.current_page) := by
  constructor
  · intro e
    cases e <;> rfl
  · intro st e hf
    cases e
    · simp only [handle_navigation] at hf
      split at hf
      · rename_i hpos
        refine ⟨rfl, ?_⟩
        rcases hget : st.results.get? (st.current_page - 1) with _ | item
        · have := List.get?_eq_none.mp hget
          omega
        · rw [hget] at hf
          simp at hf
      · simp at hf
    · simp only [handle_navigation] at hf
      split at hf
      · rename_i hlt
        rcases hget : st.results.get? (st.current_page + 1) with _ | item
        · have := List.get?_eq_none.mp hget
          omega
        · rw [hget] at hf
          simp at hf
      · simp at hf

theorem C10_nav_missing_state_witness :
    NavEvent.prev = NavEvent.prev ∧ ([] : List Nat).length < 1 :=
  (@C10_nav_missing_state Nat).2 ⟨[], 1⟩ .prev (by decide)

/-! ## Favorites removal (`remove_from_favorites`, main.py lines 432-468)

On a `remove_favorite_<id>` press the handler parses `movie_id`, calls
the store's `remove_favorite`; on storage failure it only answers with
an error toast.  On success it rebuilds the in-memory list as
`[f for f in favorites if f['id'] != movie_id]` — note this drops
EVERY entry whose id equals `movie_id`, not only the one at the cursor.
If the list became empty it shows the empty-state message and returns
without re-rendering a paged view; otherwise it clamps
`current_page` to `len(favorites) - 1` when `current_page >= len`,
stores the new list and cursor, and re-renders the item at the cursor. -/

/-- One in-memory favorite entry as built by `show_favorites`
(`{'id': .., 'title': .., 'poster_path': ..}`; the constant
overview/rating/date fields carry no information and are omitted). -/
structure Fav where
  id : Int
  title : String
  poster_path : String
  deriving Repr, DecidableEq

/-- Favorites browse-session state: stored list plus cursor. -/
structure FavSession where
  favorites : List Fav
  current_page : Nat
  deriving Repr, DecidableEq

/-- Outcome of one `remove_from_favorites` call. -/
inductive RemoveOutcome where
  | storageError
  | emptyState
  | page (session : FavSession) (item : Fav)
  | fault
  deriving Repr, DecidableEq

/-- The in-memory rebuild step
`[f for f in favorites if f['id'] != movie_id]`. -/
def removeFilter (l : List Fav) (movie_id : Int) : List Fav :=
  l.filter (fun f => f.id != movie_id)

/-- The cursor clamp
`if current_page >= len(favorites): current_page = len(favorites) - 1`
(Python's `>=` written as `n ≤ cp`). -/
def clampCursor (cp n : Nat) : Nat :=
  if n ≤ cp then n - 1 else cp

/-- `remove_from_favorites` from main.py, after a successfully parsed
`movie_id`.  `dbOk` is the boolean returned by the store's
`remove_favorite`. -/
def remove_from_favorites (st : FavSession) (movie_id : Int) (dbOk : Bool) :
    RemoveOutcome :=
  if dbOk then
    let favorites := removeFilter st.favorites movie_id
    if favorites.isEmpty then .emptyState
    else
      let current_page := clampCursor st.current_page favorites.length
      match favorites.get? current_page with
      | some item => .page ⟨favorites, current_page⟩ item
      | none => .fault
  else .storageError

/-- C2 counterexample: a favorites set of length 2 whose two entries
share the same content id.  Removing the item at the cursor drops both
entries, so the session collapses to the empty state instead of a
session of length `n - 1 = 1`. -/
theorem C2_remove_counterexample :
    remove_from_favorites ⟨[⟨5, "A", "p"⟩, ⟨5, "B", "q"⟩], 0⟩ 5 true =
      RemoveOutcome.emptyState ∧
    ¬ ∃ s it, remove_from_favorites ⟨[⟨5, "A", "p"⟩, ⟨5, "B", "q"⟩], 0⟩ 5 true =
        RemoveOutcome.page s it ∧ s.favorites.length = 1 := by
  refine ⟨rfl, ?_⟩
  rintro ⟨s, it, h, -⟩
  rw [show remove_from_favorites ⟨[⟨5, "A", "p"⟩, ⟨5, "B", "q"⟩], 0⟩ 5 true =
        RemoveOutcome.emptyState from rfl] at h
  simp at h

theorem removeFilter_length (l : List Fav) (x : Int) :
    (removeFilter l x).length = l.length - l.countP (fun f => f.id == x) ∧
    l.countP (fun f => f.id == x) ≤ l.length := by
  induction l with
  | nil => exact ⟨rfl, Nat.le.refl⟩
  | cons a l ih =>
    obtain ⟨ih1, ih2⟩ := ih
    by_cases hb : a.id = x <;>
      simp [removeFilter, List.filter_cons, List.countP_cons, hb] at * <;>
      omega

theorem clampCursor_lt {cp n : Nat} (h : 0 < n) : clampCursor cp n < n := by
  unfold clampCursor
  split <;> omega

theorem isEmpty_false_of_length_pos {l : List Fav} (h : 0 < l.length) :
    l.isEmpty = false := by
  cases l with
  | nil => simp at h
  | cons a l => rfl

theorem isEmpty_true_of_length_zero {l : List Fav} (h : l.length = 0) :
    l.isEmpty = true := by
  cases l with
  | nil => rfl
  | cons a l => simp at h

theorem remove_eq_page (st : FavSession) (mid : Int)
    (hne : (removeFilter st.favorites mid).isEmpty = false) (it : Fav)
    (hget : (removeFilter st.favorites mid).get?
        (clampCursor st.current_page (removeFilter st.favorites mid).length) =
      some it) :
    remove_from_favorites st mid true =
      RemoveOutcome.page
        ⟨removeFilter st.favorites mid,
          clampCursor st.current_page (removeFilter st.favorites mid).length⟩ it := by
  simp only [List.get?_eq_getElem?] at hget
  simp [remove_from_favorites, hne, hget]

theorem remove_eq_empty (st : FavSession) (mid : Int)
    (hempty : (removeFilter st.favorites mid).isEmpty = true) :
    remove_from_favorites st mid true = RemoveOutcome.emptyState := by
  simp [remove_from_favorites, hempty]

/-- C2 (amended): remove-current deletes every in-memory entry whose id
equals the current item's id.  When that id occurs exactly once in the
set (in particular whenever the ids are distinct): for `n > 1` the
operation yields a paged session of length exactly `n - 1` with cursor
in `[0, n-2]` (clamped to the new last index when it exceeded it), and
for `n = 1` it yields the empty state. -/
theorem C2_remove_current (st : FavSession) (item : Fav)
    (hitem : st.favorites.get? st.current_page = some item)
    (huniq : st.favorites.countP (fun f => f.id == item.id) = 1) :
    (1 < st.favorites.length →
      ∃ s it, remove_from_favorites st item.id true = RemoveOutcome.page s it ∧
        s.favorites.length = st.favorites.length - 1 ∧
        s.current_page < s.favorites.length) ∧
    (st.favorites.length = 1 →
      remove_from_favorites st item.id true = RemoveOutcome.emptyState) := by
  obtain ⟨hflen, hcle⟩ := removeFilter_length st.favorites item.id
  have hlen : (removeFilter st.favorites item.id).length =
      st.favorites.length - 1 := by omega
  constructor
  · intro hn
    have hpos : 0 < (removeFilter st.favorites item.id).length := by omega
    have hne := isEmpty_false_of_length_pos hpos
    have hcp' := @clampCursor_lt st.current_page _ hpos
    rcases hget : (removeFilter st.favorites item.id).get?
        (clampCursor st.current_page (removeFilter st.favorites item.id).length)
      with _ | it
    · exfalso
      have := List.get?_eq_none.mp hget
      omega
    · exact ⟨_, it, remove_eq_page st item.id hne it hget, hlen, hcp'⟩
  · intro h1
    exact remove_eq_empty st item.id
      (isEmpty_true_of_length_zero (by omega))

theorem C2_remove_current_witness :
    (∃ s it,
      remove_from_favorites ⟨[⟨1, "A", "p"⟩, ⟨2, "B", "q"⟩], 1⟩ 2 true =
        RemoveOutcome.page s it ∧
      s.favorites.length = ([⟨1, "A", "p"⟩, ⟨2, "B", "q"⟩] : List Fav).length - 1 ∧
      s.current_page < s.favorites.length) ∧
    remove_from_favorites ⟨[⟨3, "C", "r"⟩], 0⟩ 3 true = RemoveOutcome.emptyState :=
  ⟨(C2_remove_current ⟨[⟨1, "A", "p"⟩, ⟨2, "B", "q"⟩], 1⟩ ⟨2, "B", "q"⟩
      (by decide) (by decide)).1 (by decide),
   (C2_remove_current ⟨[⟨3, "C", "r"⟩], 0⟩ ⟨3, "C", "r"⟩
      (by decide) (by decide)).2 (by decide)⟩

/-! ## Resilient fetcher (`make_api_request`, main.py lines 54-87)

The loop is `for attempt in range(max_retries)`, one HTTP request per
iteration, inside two nested `try` blocks:
  * status 200: parse and return the body;
  * status 429: `retry_after = int(response.headers.get('Retry-After',
    retry_delay))`; sleep that long; `continue` — which advances the
    `for` loop, so the iteration IS consumed; if the header is present
    but unparsable, `int(...)` raises `ValueError`, which falls through
    to the outer `except Exception` handler;
  * any other status: `raise APIError(...)` — but this is raised inside
    the outer `try`, whose `except Exception` catches `APIError` itself,
    so the status error never propagates and the iteration is retried;
  * `ClientError`/`ServerTimeoutError` (connection faults): caught by
    the inner handler.
Both the inner connection-fault handler and the outer generic handler
sleep `retry_delay * 2**attempt` when `attempt < max_retries - 1`
(no wait after the final attempt) and `continue`.  When the loop ends
without returning, `APIError("Max retries exceeded")` is raised. -/

/-- One scripted outcome of a single HTTP request.  `otherStatus` is
any status code other than 200 and 429; `connFault` is a
`ClientError`/`ClientConnectorError`/`ServerTimeoutError`. -/
inductive HttpResp where
  | ok (body : Nat)
  | rateLimited (retryAfter : Option String)
  | otherStatus (code : Nat)
  | connFault
  deriving Repr, DecidableEq

/-- Result of a `make_api_request` call: the parsed body, or a raised
`APIError` with its message. -/
inductive FetchResult where
  | success (body : Nat)
  | apiError (msg : String)
  deriving Repr, DecidableEq

/-- Observable trace of one call: final result, the `asyncio.sleep`
durations in order, and the number of HTTP requests made. -/
structure FetchTrace where
  result : FetchResult
  waits : List Int
  attempts : Nat
  deriving Repr, DecidableEq

/-- Model of Python `int(s)` on header strings: an optional single sign
followed by one or more digits parses; any other string raises
`ValueError` (`none` here).  (Python also strips whitespace and allows
underscore separators; no claim depends on such inputs.) -/
def pyInt (s : String) : Option Int :=
  let digits : List Char → Option Nat := fun cs =>
    if cs.isEmpty then none
    else if cs.all Char.isDigit then
      some (cs.foldl (fun acc c => acc * 10 + (c.toNat - 48)) 0)
    else none
  match s.data with
  | '-' :: rest => (digits rest).map (fun n => -(n : Int))
  | '+' :: rest => (digits rest).map (fun n => (n : Int))
  | cs => (digits cs).map (fun n => (n : Int))

/-- The retry loop.  `script a` is the response to the request made on
loop iteration `a`; `fuel` is the number of iterations left, so the
current attempt index is `max_retries - fuel`.  The entry point
`make_api_request` passes `fuel = max_retries`. -/
def fetchGo (script : Nat → HttpResp) (retry_delay max_retries : Nat) :
    Nat → FetchTrace
  | 0 => ⟨.apiError "Max retries exceeded", [], 0⟩
  | fuel + 1 =>
    let attempt := max_retries - (fuel + 1)
    let rest := fetchGo script retry_delay max_retries fuel
    let backoff : FetchTrace :=
      if attempt < max_retries - 1 then
        ⟨rest.result, ((retry_delay : Int) * 2 ^ attempt) :: rest.waits,
          rest.attempts + 1⟩
      else ⟨rest.result, rest.waits, rest.attempts + 1⟩
    match script attempt with
    | .ok body => ⟨.success body, [], 1⟩
    | .rateLimited h =>
      match h with
      | none => ⟨rest.result, (retry_delay : Int) :: rest.waits, rest.attempts + 1⟩
      | some s =>
        match pyInt s with
        | some v => ⟨rest.result, v :: rest.waits, rest.attempts + 1⟩
        | none => backoff
    | .otherStatus _ => backoff
    | .connFault => backoff

/-- `make_api_request` from main.py (defaults `max_retries=3`,
`retry_delay=1`). -/
def make_api_request (script : Nat → HttpResp) (max_retries retry_delay : Nat) :
    FetchTrace :=
  fetchGo script retry_delay max_retries max_retries

theorem fetchGo_ok (script : Nat → HttpResp) (rd mr fuel body : Nat)
    (h : script (mr - fuel) = .ok body) (hf : 0 < fuel) :
    fetchGo script rd mr fuel = ⟨.success body, [], 1⟩ := by
  cases fuel with
  | zero => omega
  | succ n => simp [fetchGo, h]

theorem fetchGo_step_rate_some (script : Nat → HttpResp) (rd mr fuel : Nat)
    (s : String) (v : Int)
    (hscript : script (mr - (fuel + 1)) = .rateLimited (some s))
    (hs : pyInt s = some v) :
    fetchGo script rd mr (fuel + 1) =
      ⟨(fetchGo script rd mr fuel).result,
        v :: (fetchGo script rd mr fuel).waits,
        (fetchGo script rd mr fuel).attempts + 1⟩ := by
  simp only [fetchGo, hscript, hs]

theorem fetchGo_connFault (rd mr : Nat) :
    ∀ fuel, fuel ≤ mr →
    fetchGo (fun _ => .connFault) rd mr fuel =
      ⟨.apiError "Max retries exceeded",
       (List.range' (mr - fuel) (fuel - 1)).map
         (fun k => ((rd : Int) * 2 ^ k)), fuel⟩ := by
  intro fuel
  induction fuel with
  | zero => intro _; rfl
  | succ n ih =>
    intro hle
    have hrest := ih (by omega)
    simp only [fetchGo, hrest]
    by_cases hn : 0 < n
    · have hlt : mr - (n + 1) < mr - 1 := by omega
      have harith : mr - (n + 1) + 1 = mr - n := by omega
      simp only [if_pos hlt]
      have hr : List.range' (mr - (n + 1)) (n + 1 - 1) =
          (mr - (n + 1)) :: List.range' (mr - n) (n - 1) := by
        have : n + 1 - 1 = (n - 1) + 1 := by omega
        rw [this, List.range'_succ, harith]
      rw [hr]
      simp
    · have hn0 : n = 0 := by omega
      subst hn0
      have : ¬ (mr - (0 + 1) < mr - 1) := by omega
      simp [this]

theorem fetchGo_rate_none_all (rd mr : Nat) :
    ∀ fuel,
    fetchGo (fun _ => .rateLimited none) rd mr fuel =
      ⟨.apiError "Max retries exceeded", List.replicate fuel (rd : Int), fuel⟩ := by
  intro fuel
  induction fuel with
  | zero => rfl
  | succ n ih => simp [fetchGo, ih, List.replicate_succ]

theorem fetchGo_rate_none_then_ok (rd mr body : Nat) :
    ∀ fuel k, k < fuel → fuel ≤ mr →
    fetchGo (fun a => if a < (mr - fuel) + k then .rateLimited none else .ok body)
        rd mr fuel =
      ⟨.success body, List.replicate k (rd : Int), k + 1⟩ := by
  intro fuel
  induction fuel with
  | zero => intro k hk; omega
  | succ n ih =>
    intro k hk hle
    cases k with
    | zero =>
      have h0 : ¬ (mr - (n + 1) < (mr - (n + 1)) + 0) := by omega
      simp only [fetchGo, if_neg h0]
      rfl
    | succ j =>
      have harith : (mr - (n + 1)) + (j + 1) = (mr - n) + j := by omega
      have hlt : mr - (n + 1) < (mr - n) + j := by omega
      have hrest := ih j (by omega) (by omega)
      simp only [fetchGo, harith, if_pos hlt, hrest, List.replicate_succ]

/-- C5: against an endpoint that always raises a connection-level fault,
`make_api_request` makes exactly `max_retries` requests, sleeps
`retry_delay * 2^k` after failed attempt `k` for each
`k ∈ [0, max_retries-2]` (and nothing after the final attempt), and ends
by raising `APIError("Max retries exceeded")`. -/
theorem C5_fetch_all_timeouts (max_retries retry_delay : Nat) :
    make_api_request (fun _ => .connFault) max_retries retry_delay =
      ⟨.apiError "Max retries exceeded",
       (List.range (max_retries - 1)).map
         (fun k => ((retry_delay : Int) * 2 ^ k)),
       max_retries⟩ := by
  rw [make_api_request, fetchGo_connFault retry_delay max_retries max_retries
    (Nat.le_refl _), Nat.sub_self, List.range_eq_range']

/-- C4 counterexample: a 404 on the first attempt is NOT terminal — the
raised `APIError` is swallowed by the outer `except Exception`, a
backoff wait of `retry_delay * 2^0` occurs, and the next attempt's 200
is returned.  Two requests are made, contradicting "no further attempt
is made and no backoff wait occurs". -/
theorem C4_fetch_counterexample :
    make_api_request (fun a => if a = 0 then .otherStatus 404 else .ok 7) 3 1 =
      ⟨.success 7, [1], 2⟩ ∧
    (make_api_request (fun a => if a = 0 then .otherStatus 404 else .ok 7)
        3 1).attempts ≠ 1 := by
  constructor <;> decide

/-- C4 (amended): a status other than 200/429 raises `APIError` inside
the outer `try`, whose broad `except Exception` catches it; the call
then behaves exactly as on a connection-level fault — exponential
backoff and retry — and a run in which every attempt returns such a
status fails only after all `max_retries` attempts, with
`APIError("Max retries exceeded")`; the per-status message never
surfaces. -/
theorem C4_fetch_other_status (codes : Nat → Nat) (mr rd : Nat) :
    make_api_request (fun a => .otherStatus (codes a)) mr rd =
      make_api_request (fun _ => .connFault) mr rd ∧
    make_api_request (fun a => .otherStatus (codes a)) mr rd =
      ⟨.apiError "Max retries exceeded",
       (List.range (mr - 1)).map (fun k => ((rd : Int) * 2 ^ k)), mr⟩ := by
  have key : ∀ fuel,
      fetchGo (fun a => .otherStatus (codes a)) rd mr fuel =
        fetchGo (fun _ => .connFault) rd mr fuel := by
    intro fuel
    induction fuel with
    | zero => rfl
    | succ n ih => simp [fetchGo, ih]
  constructor
  · exact key mr
  · rw [make_api_request, key mr, ← make_api_request]
    rw [make_api_request, fetchGo_connFault rd mr mr (Nat.le_refl _),
      Nat.sub_self, List.range_eq_range']

/-- C3 counterexample: with `max_retries = 3`, three consecutive 429
responses (no `Retry-After` header) followed by a 200 do NOT return the
body: each 429's `continue` advances the `for attempt` loop, so the
three rate-limit responses exhaust the whole budget and the call raises
`APIError("Max retries exceeded")` after three requests and three
`retry_delay` waits. -/
theorem C3_fetch_counterexample :
    make_api_request (fun a => if a < 3 then .rateLimited none else .ok 42) 3 1 =
      ⟨.apiError "Max retries exceeded", [1, 1, 1], 3⟩ ∧
    (make_api_request (fun a => if a < 3 then .rateLimited none else .ok 42)
        3 1).result ≠ .success 42 := by
  constructor <;> decide

/-- C3 (amended): an HTTP 429 suspends for the parsed `Retry-After`
value when the header is present and parsable, or for `retry_delay`
when it is absent (an unparsable header instead raises `ValueError`,
taking the generic-handler backoff path), and it consumes one of the
`max_retries` attempts: `k < max_retries` consecutive 429s followed by
a 200 still return the parsed body after `k` waits of `retry_delay`,
while a run of nothing but 429s exhausts the budget after exactly
`max_retries` requests and raises `APIError("Max retries exceeded")`. -/
theorem C3_fetch_rate_limit (mr rd k body : Nat) (hk : k < mr) :
    make_api_request (fun a => if a < k then .rateLimited none else .ok body)
        mr rd =
      ⟨.success body, List.replicate k (rd : Int), k + 1⟩ ∧
    make_api_request (fun _ => .rateLimited none) mr rd =
      ⟨.apiError "Max retries exceeded", List.replicate mr (rd : Int), mr⟩ ∧
    (∀ s v, pyInt s = some v → 2 ≤ mr →
      make_api_request
          (fun a => if a = 0 then .rateLimited (some s) else .ok body) mr rd =
        ⟨.success body, [v], 2⟩) := by
  refine ⟨?_, ?_, ?_⟩
  · have h := fetchGo_rate_none_then_ok rd mr body mr k hk (Nat.le_refl _)
    rw [Nat.sub_self, Nat.zero_add] at h
    exact h
  · exact fetchGo_rate_none_all rd mr mr
  · intro s v hs hmr
    obtain ⟨m, rfl⟩ : ∃ m, mr = m + 2 := ⟨mr - 2, by omega⟩
    have hrest : fetchGo
        (fun a => if a = 0 then .rateLimited (some s) else .ok body)
        rd (m + 2) (m + 1) = ⟨.success body, [], 1⟩ := by
      refine fetchGo_ok _ rd (m + 2) (m + 1) body ?_ (by omega)
      have h1 : m + 2 - (m + 1) = 1 := by omega
      rw [h1]
      simp
    rw [make_api_request]
    show fetchGo _ rd (m + 2) (m + 1 + 1) = _
    rw [fetchGo_step_rate_some _ rd (m + 2) (m + 1) s v
      (by simp [Nat.sub_self]) hs, hrest]

theorem C3_fetch_rate_limit_witness :
    make_api_request (fun a => if a < 2 then .rateLimited none else .ok 9) 3 1 =
      ⟨.success 9, List.replicate 2 (1 : Int), 3⟩ :=
  (C3_fetch_rate_limit 3 1 2 9 (by decide)).1

/-! ## Persistence store (`src/database.py`)

One table `favorites(id AUTOINCREMENT, user_id, movie_id, title,
poster_path)`.  Functional semantics of the three SQL operations on a
successful path are `db_add_favorite` / `db_remove_favorite` /
`db_get_favorites`; the Python wrappers with their
`try/except/finally` exception flow are `add_favorite` /
`remove_favorite` / `get_favorites` below. -/

/-- One row of the `favorites` table. -/
structure FavRow where
  id : Nat
  user_id : Int
  movie_id : Int
  title : String
  poster_path : String
  deriving Repr, DecidableEq

/-- The table contents plus the next `AUTOINCREMENT` surrogate key. -/
structure DB where
  rows : List FavRow
  next_id : Nat
  deriving Repr, DecidableEq

/-- `INSERT INTO favorites (user_id, movie_id, title, poster_path)
VALUES (?, ?, ?, ?)` + `commit`: appends a row (duplicates allowed);
the call site returns `True`. -/
def db_add_favorite (db : DB) (user_id movie_id : Int)
    (title poster_path : String) : DB × Bool :=
  ({ rows := db.rows ++ [⟨db.next_id, user_id, movie_id, title, poster_path⟩],
     next_id := db.next_id + 1 }, true)

/-- `DELETE FROM favorites WHERE user_id = ? AND movie_id = ?` +
`commit`: drops every matching row; returns `True` whether or not any
row matched. -/
def db_remove_favorite (db : DB) (user_id movie_id : Int) : DB × Bool :=
  (⟨db.rows.filter (fun r => !(r.user_id == user_id && r.movie_id == movie_id)),
    db.next_id⟩, true)

/-- `SELECT * FROM favorites WHERE user_id = ?` + `fetchall`: the
matching rows in insertion order. -/
def db_get_favorites (db : DB) (user_id : Int) : List FavRow :=
  db.rows.filter (fun r => r.user_id == user_id)

/-- A Python-level call outcome: a normal return, or an uncaught
exception escaping to the caller. -/
inductive PyResult (α : Type) where
  | ret (a : α)
  | exc (e : String)
  deriving Repr, DecidableEq

/-- `add_favorite` from database.py with its exception flow.
`connectOk` says whether `get_db_connection()` (called INSIDE the
`try`) returns; `execOk` whether `execute`/`commit` succeed.
  * connect raises → `except` logs and returns `False`, but then
    `finally` evaluates `conn.close()` with the local `conn` never
    assigned, raising `UnboundLocalError`, which replaces the pending
    return and propagates to the caller;
  * connect OK, execute raises → `except` returns `False`, `finally`
    closes the bound handle: caller sees `False`;
  * all OK → `True` and the inserted row. -/
def add_favorite (connectOk execOk : Bool) (db : DB) (user_id movie_id : Int)
    (title poster_path : String) : PyResult (DB × Bool) :=
  if connectOk then
    if execOk then .ret (db_add_favorite db user_id movie_id title poster_path)
    else .ret (db, false)
  else .exc "UnboundLocalError"

/-- `remove_favorite` from database.py, same `try/except/finally`
shape as `add_favorite`. -/
def remove_favorite (connectOk execOk : Bool) (db : DB)
    (user_id movie_id : Int) : PyResult (DB × Bool) :=
  if connectOk then
    if execOk then .ret (db_remove_favorite db user_id movie_id)
    else .ret (db, false)
  else .exc "UnboundLocalError"

/-- `get_favorites` from database.py, same shape; a storage fault after
a successful connect converts to `[]`. -/
def get_favorites (connectOk execOk : Bool) (db : DB) (user_id : Int) :
    PyResult (List FavRow) :=
  if connectOk then
    if execOk then .ret (db_get_favorites db user_id)
    else .ret ([] : List FavRow)
  else .exc "UnboundLocalError"

/-- C6: the claim is the code's evident intent, but the code slips on
one path.  When `get_db_connection()` itself raises, `conn` is unbound
and each operation's `finally: conn.close()` raises
`UnboundLocalError` to the caller instead of returning the failure
outcome.  Faults after a successful connect ARE converted
(`False` / `False` / `[]`) as the claim says. -/
theorem C6_storage_fault_behaviour :
    add_favorite false true ⟨[], 1⟩ 1 2 "T" "P" = .exc "UnboundLocalError" ∧
    remove_favorite false true ⟨[], 1⟩ 1 2 = .exc "UnboundLocalError" ∧
    get_favorites false true ⟨[], 1⟩ 1 = .exc "UnboundLocalError" ∧
    (∀ (db : DB) (u m : Int) (t p : String),
      add_favorite true false db u m t p = .ret (db, false)) ∧
    (∀ (db : DB) (u m : Int), remove_favorite true false db u m = .ret (db, false)) ∧
    (∀ (db : DB) (u : Int), get_favorites true false db u = .ret []) :=
  ⟨rfl, rfl, rfl, fun _ _ _ _ _ => rfl, fun _ _ _ => rfl, fun _ _ => rfl⟩

/-- C7: starting from a store where the owner has no favorites, a
successful add makes `list` return exactly one entry carrying that
`movie_id` and `title`; a subsequent remove makes `list` return `[]`;
and `remove` reports success unconditionally, in particular when zero
rows match. -/
theorem C7_add_list_remove_roundtrip (db : DB) (uid mid : Int)
    (t p : String) (hempty : db_get_favorites db uid = []) :
    (db_add_favorite db uid mid t p).2 = true ∧
    db_get_favorites (db_add_favorite db uid mid t p).1 uid =
      [⟨db.next_id, uid, mid, t, p⟩] ∧
    (db_remove_favorite (db_add_favorite db uid mid t p).1 uid mid).2 = true ∧
    db_get_favorites
      (db_remove_favorite (db_add_favorite db uid mid t p).1 uid mid).1 uid = [] ∧
    (∀ (d : DB) (u m : Int), (db_remove_favorite d u m).2 = true) := by
  simp only [db_get_favorites] at hempty
  have hnone := List.filter_eq_nil_iff.mp hempty
  refine ⟨rfl, ?_, rfl, ?_, fun _ _ _ => rfl⟩
  · simp [db_get_favorites, db_add_favorite, List.filter_append, hempty]
  · simp only [db_get_favorites, db_remove_favorite, db_add_favorite,
      List.filter_append, List.filter_filter]
    rw [List.filter_eq_nil_iff.mpr, List.filter_eq_nil_iff.mpr, List.nil_append]
    · intro r hr
      simp only [List.mem_singleton] at hr
      subst hr
      simp
    · intro r hr hcontra
      exact hnone r hr (by
        simp only [Bool.and_eq_true, beq_iff_eq] at hcontra
        simp [hcontra.1])

theorem C7_add_list_remove_roundtrip_witness :
    (db_add_favorite ⟨[⟨0, 99, 7, "X", "Y"⟩], 1⟩ 1 2 "T" "P").2 = true ∧
    db_get_favorites (db_add_favorite ⟨[⟨0, 99, 7, "X", "Y"⟩], 1⟩ 1 2 "T" "P").1 1 =
      [⟨1, 1, 2, "T", "P"⟩] ∧
    (db_remove_favorite
      (db_add_favorite ⟨[⟨0, 99, 7, "X", "Y"⟩], 1⟩ 1 2 "T" "P").1 1 2).2 = true ∧
    db_get_favorites
      (db_remove_favorite
        (db_add_favorite ⟨[⟨0, 99, 7, "X", "Y"⟩], 1⟩ 1 2 "T" "P").1 1 2).1 1 = [] ∧
    (∀ (d : DB) (u m : Int), (db_remove_favorite d u m).2 = true) :=
  C7_add_list_remove_roundtrip ⟨[⟨0, 99, 7, "X", "Y"⟩], 1⟩ 1 2 "T" "P" (by decide)

/-! ## Search-result filtering (`process_search_query`, main.py 118-142)

`results = [item for item in data.get("results", [])
            if item.get("media_type") in ["movie", "tv"]]` -/

/-- One entry of a provider `results` array: its `media_type` field
(`none` when the key is absent) plus an opaque payload standing for the
remaining fields. -/
structure SearchItem where
  media_type : Option String
  payload : Nat
  deriving Repr, DecidableEq

/-- The list comprehension of `process_search_query`. -/
def filter_search_results (results : List SearchItem) : List SearchItem :=
  results.filter
    (fun item => item.media_type == some "movie" || item.media_type == some "tv")

/-- C8: the retained browse set is exactly the provider entries whose
`media_type` is `"movie"` or `"tv"`: it is a sublist of the provider
order (hence the relative order is preserved), and each entry occurs in
it exactly as often as in the input when its `media_type` is movie/tv,
and never otherwise. -/
theorem C8_media_type_filter (results : List SearchItem) :
    List.Sublist (filter_search_results results) results ∧
    ∀ it : SearchItem,
      (filter_search_results results).count it =
        if it.media_type = some "movie" ∨ it.media_type = some "tv" then
          results.count it
        else 0 := by
  refine ⟨List.filter_sublist results, fun it => ?_⟩
  by_cases h : it.media_type = some "movie" ∨ it.media_type = some "tv"
  · rw [if_pos h]
    exact List.count_filter (by
      rcases h with h | h <;> simp [h])
  · rw [if_neg h]
    rw [List.count_eq_zero]
    intro hmem
    have := (List.mem_filter.mp hmem).2
    simp only [Bool.or_eq_true, beq_iff_eq] at this
    exact h this

/-! ## Release-year rendering (`show_search_results` etc., main.py 144-154)

`item.get('release_date', item.get('first_air_date', 'Неизвестно'))[:4]`
— note the `[:4]` slice applies to whatever the lookup produced,
including the fallback literal. -/

/-- Python `s[:4]`: the first four code points (whole string when
shorter). -/
def strSlice4 (s : String) : String :=
  ⟨s.data.take 4⟩

/-- The year fragment of the rendered text: release date, else first
air date, else the literal `'Неизвестно'`, then sliced to four
characters. -/
def displayed_year (release_date first_air_date : Option String) : String :=
  strSlice4 (release_date.getD (first_air_date.getD "Неизвестно"))

/-- C9 counterexample: a present-but-malformed date string is rendered
as its own (at most four character) prefix — the empty date renders as
the empty string — and an absent date renders as `"Неиз"`, the
four-character slice of the fallback; neither equals the full
placeholder `"Неизвестно"`. -/
theorem C9_year_counterexample :
    displayed_year (some "") none = "" ∧
    displayed_year none none = "Неиз" ∧
    ("" : String) ≠ "Неизвестно" ∧
    ("Неиз" : String) ≠ "Неизвестно" := by
  refine ⟨rfl, ?_, by decide, by decide⟩
  decide

/-- C9 (amended): the displayed year is the first-four-character slice
of the date string whenever one is present — the year proper for a
well-formed date, but the raw (possibly shorter) prefix for a malformed
one, never the placeholder — falling back to the `first_air_date`
field, and when both are absent it is `"Неиз"`, the slice of the
placeholder itself rather than the full placeholder. -/
theorem C9_year_display (release_date first_air_date : Option String) :
    (∀ s, release_date = some s →
      displayed_year release_date first_air_date = strSlice4 s) ∧
    (release_date = none → ∀ s, first_air_date = some s →
      displayed_year release_date first_air_date = strSlice4 s) ∧
    (release_date = none → first_air_date = none →
      displayed_year release_date first_air_date = "Неиз") := by
  refine ⟨?_, ?_, ?_⟩
  · intro s hs
    subst hs
    rfl
  · intro h1 s hs
    subst h1
    subst hs
    rfl
  · intro h1 h2
    subst h1
    subst h2
    decide

theorem C9_year_display_witness :
    displayed_year (some "2023-05-01") none = strSlice4 "2023-05-01" ∧
    displayed_year none none = "Неиз" :=
  ⟨(C9_year_display (some "2023-05-01") none).1 "2023-05-01" rfl,
   (C9_year_display none none).2.2 rfl rfl⟩

end MovieBot
